import Mathlib

/-!
# Verification of the signal-to-execution pipeline of a crypto trading bot

This file gives a shallow embedding, over `ℚ`, of the core components of the
bot: the risk gate (`bot/risk/manager.py`), the simulated execution engine
(`bot/execution/simulated.py`), the order/trade lifecycle manager
(`bot/execution/order_manager.py`), the strategy run loop
(`bot/strategies/runner.py`), the base strategy contract
(`bot/strategies/base.py`), and the two backtest engines
(`bot/backtesting/engine.py`, `bot/backtesting/fast_engine.py`).

Modelling conventions:
- Python floats/Decimals are modelled as `ℚ` (exact arithmetic).
- Timestamps are bar indices (`ℕ`).  Wall-clock reads (`datetime.now`) that the
  source stores into `filled_at`/`closed_at` are modelled as the timestamp of
  the triggering bar; the only property the pipeline reads from those fields is
  whether `closed_at` is null, which is preserved.
- The relational store is a record of lists (`DbState`); SQL inserts append,
  and the open-trade query filters on `closed_at IS NULL` in insertion order.
- Log messages and veto-reason strings are modelled as inductive tags carrying
  the interpolated values; only warning-level log events are modelled.
- Fallible code returns `Except String`; `raise` becomes `.error`.
- The execution engine's preview price is passed to the lifecycle manager as an
  `Option ℚ` argument (the simulated engine always previews `none`, and the
  caller falls back to the signal price, exactly as in the source).
- `signals.py` defines `SignalType` as a class of plain string constants and
  every strategy stores a plain string into `StrategySignal.signal_type`, yet
  `runner.py` reads `sig.signal_type.value` (lines 141 and 150) as soon as a
  signal passes debounce.  A Python string has no `value` attribute, so the
  acted-signal path of `StrategyRunner.run` raises `AttributeError`
  unconditionally — after `last_signal_type` is assigned but before the signal
  is persisted or any risk check or lifecycle call runs — and the exception
  propagates out of `run`.  The model returns `.error attrErr` at exactly that
  point.
-/

namespace Bot

/-- Signal types emitted by strategies (`bot/strategies/signals.py`). -/
inductive SignalType
  | ENTER
  | EXIT
  | HOLD
deriving Repr, DecidableEq

/-- One OHLC bar.  `timestamp` is the bar index. -/
structure Candle where
  timestamp : ℕ
  high : ℚ
  low : ℚ
  close : ℚ
deriving Repr, DecidableEq

/-- A signal produced by a strategy (`StrategySignal` in the source). -/
structure StrategySignal where
  timestamp : ℕ
  signal_type : SignalType
  price : ℚ
deriving Repr, DecidableEq

/-- Daily equity bookkeeping row (the fields the pipeline reads). -/
structure DailySnapshot where
  ending_equity : Option ℚ
  realized_pnl : Option ℚ
deriving Repr, DecidableEq

/-- Portfolio row (the fields the pipeline reads). -/
structure Portfolio where
  starting_equity : Option ℚ
deriving Repr, DecidableEq

/-- Reasons a trade was exited. -/
inductive ExitReason
  | exit_signal
  | stop_loss
  | take_profit
deriving Repr, DecidableEq

/-- Analytics JSON blob stored on a Trade row.  `handle_enter` seeds the
numeric fields with zeroes, so the `meta.get(key, 0.0)` defaults of the source
coincide with reading these fields. -/
structure TradeAnalytics where
  mfe : ℚ
  mae : ℚ
  max_runup_pct : ℚ
  max_drawdown_pct : ℚ
  volatility_at_entry : Option ℚ
  exit_trigger : Option ExitReason
deriving Repr, DecidableEq

/-- Order side. -/
inductive Side
  | buy
  | sell
deriving Repr, DecidableEq

/-- Order status as used by the execution layer and the Order rows. -/
inductive OrderStatus
  | SUBMITTED
  | FILLED
  | CANCELLED
  | REJECTED
deriving Repr, DecidableEq

/-- An Order row.  `price` starts as the marketable limit price and is
overwritten with the average fill price on finalization. -/
structure Order where
  id : ℕ
  side : Side
  size : ℚ
  price : Option ℚ
  status : OrderStatus
  opened_at : ℕ
  filled_at : Option ℕ
  fee : ℚ
  exchange_order_id : Option ℕ
deriving Repr, DecidableEq

/-- A Trade row.  `db.record_trade` always inserts a fresh row, so an exit
inserts a new closed row and leaves the entry row open. -/
structure Trade where
  id : ℕ
  entry_order_id : ℕ
  exit_order_id : Option ℕ
  entry_price : ℚ
  exit_price : Option ℚ
  size : ℚ
  realized_pnl : Option ℚ
  realized_pnl_pct : Option ℚ
  opened_at : ℕ
  closed_at : Option ℕ
  exit_reason : Option ExitReason
  analytics : TradeAnalytics
deriving Repr, DecidableEq

/-- Aggregate of a portfolio's state loaded once per bar
(`PortfolioState` in `bot/persistence/db.py`). -/
structure PortfolioState where
  portfolio : Option Portfolio
  open_trades : List Trade
  last_snapshot : Option DailySnapshot
deriving Repr, DecidableEq

/-- Configuration scalars pulled out of the `strategy_params` dict, with the
defaults the source supplies at each `.get` site. -/
structure StrategyParams where
  max_risk_pct : ℚ := 0.02
  max_daily_loss_pct : ℚ := 0.03
  max_trades_per_day : ℕ := 6
  max_slippage_pct : ℚ := 0
  stop_loss_pct : ℚ := 0
  take_profit_pct : ℚ := 0
deriving Repr, DecidableEq

/-- Veto reasons produced by `RiskManager.evaluate_entry`, as tags carrying
the values interpolated into the source's f-strings. -/
inductive VetoReason
  | portfolioNotFound
  | noEquityData
  | dailyLossExceeded (pnl_today : ℚ)
  | maxTradesReached (limit : ℕ)
deriving Repr, DecidableEq

/-- Soft (non-blocking) risk warnings. -/
inductive RiskWarningMsg
  | highIntradayVolatility
deriving Repr, DecidableEq

/-- Result of a risk evaluation (`RiskCheckResult` in `bot/risk/result.py`). -/
structure RiskCheckResult where
  allow : Bool
  size : Option ℚ
  warnings : List RiskWarningMsg
  veto_reason : Option VetoReason
deriving Repr, DecidableEq

/-- Equity basis used by sizing: the last daily snapshot's ending equity when a
snapshot exists, otherwise the portfolio's starting equity. -/
def equity_basis (portfolio : Portfolio) (last_snapshot : Option DailySnapshot) : Option ℚ :=
  match last_snapshot with
  | some snap => snap.ending_equity
  | none => portfolio.starting_equity

/-- The risk gate, `RiskManager.evaluate_entry` (`bot/risk/manager.py`). -/
def evaluate_entry (p : StrategyParams) (candle : Candle) (state : PortfolioState) :
    RiskCheckResult :=
  match state.portfolio with
  | none =>
      { allow := false, size := none, warnings := [],
        veto_reason := some .portfolioNotFound }
  | some portfolio =>
    match equity_basis portfolio state.last_snapshot with
    | none =>
        { allow := false, size := none, warnings := [],
          veto_reason := some .noEquityData }
    | some equity =>
      let price := candle.close
      let size := equity * p.max_risk_pct / price
      let daily_veto : Option ℚ :=
        match state.last_snapshot with
        | some snap =>
          match snap.realized_pnl with
          | some pnl =>
              if pnl < -(equity * p.max_daily_loss_pct) then some pnl else none
          | none => none
        | none => none
      match daily_veto with
      | some pnl =>
          { allow := false, size := none, warnings := [],
            veto_reason := some (.dailyLossExceeded pnl) }
      | none =>
        if p.max_trades_per_day ≤ state.open_trades.length then
          { allow := false, size := none, warnings := [],
            veto_reason := some (.maxTradesReached p.max_trades_per_day) }
        else
          let warnings :=
            if candle.close * (2 / 100) < candle.high - candle.low then
              [RiskWarningMsg.highIntradayVolatility]
            else []
          { allow := true, size := some size, warnings := warnings,
            veto_reason := none }

/-- State used by the C3 counterexample: equity 10000 from the last snapshot,
today's realized P&L equal to -310. -/
def c3_state : PortfolioState :=
  { portfolio := some { starting_equity := some 10000 },
    open_trades := [],
    last_snapshot := some { ending_equity := some 10000, realized_pnl := some (-310) } }

/-- Flat bar at 100 used by the risk-gate examples. -/
def c3_candle : Candle := { timestamp := 0, high := 100, low := 100, close := 100 }

/-- C3 counterexample: with equity 10000 and the parameter `max_daily_loss_pct`
configured to `3` (as the claim's concrete instance prescribes), a daily
realized P&L of -310 is NOT vetoed: the source multiplies equity by the raw
parameter value (a fraction, default 0.03), so the threshold becomes -30000,
and the comparison is strict.  The call returns allow with no veto reason,
contradicting the claim. -/
theorem c3_counterexample :
    (evaluate_entry { max_daily_loss_pct := 3 } c3_candle c3_state).allow = true ∧
    (evaluate_entry { max_daily_loss_pct := 3 } c3_candle c3_state).veto_reason = none := by
  norm_num [evaluate_entry, c3_candle, c3_state, equity_basis]

/-- C3 (amended): if the portfolio and an equity basis exist and the current
day's realized P&L is strictly less than -(equity × max_daily_loss_pct), where
`max_daily_loss_pct` is a fraction (default 0.03 = 3%), then `evaluate_entry`
returns a veto whose reason references the daily loss — and this holds
regardless of the number of open trades, i.e. the daily-loss check takes
precedence over the open-trade-count cap. -/
theorem evaluate_entry_daily_loss_veto
    (p : StrategyParams) (candle : Candle) (state : PortfolioState)
    (pf : Portfolio) (snap : DailySnapshot) (equity pnl : ℚ)
    (hpf : state.portfolio = some pf)
    (hsnap : state.last_snapshot = some snap)
    (heq : snap.ending_equity = some equity)
    (hpnl : snap.realized_pnl = some pnl)
    (hloss : pnl < -(equity * p.max_daily_loss_pct)) :
    evaluate_entry p candle state =
      { allow := false, size := none, warnings := [],
        veto_reason := some (.dailyLossExceeded pnl) } := by
  unfold evaluate_entry equity_basis
  rw [hpf, hsnap]
  simp only [heq, hpnl, if_pos hloss]

/-- Witness for the amended C3 theorem at the spec's concrete numbers read as
fractions: equity 10000, `max_daily_loss_pct = 0.03` (threshold -300), daily
realized P&L -310, six open trades pending (showing the daily-loss veto wins
over the trade cap). -/
theorem evaluate_entry_daily_loss_veto_witness :
    evaluate_entry { max_daily_loss_pct := 0.03 } c3_candle c3_state =
      { allow := false, size := none, warnings := [],
        veto_reason := some (.dailyLossExceeded (-310)) } :=
  evaluate_entry_daily_loss_veto _ _ _
    { starting_equity := some 10000 }
    { ending_equity := some 10000, realized_pnl := some (-310) }
    10000 (-310) rfl rfl rfl rfl (by norm_num)

/-- State used by the C4 counterexample: the last snapshot reports an ending
equity of 0 and no realized P&L. -/
def c4_state : PortfolioState :=
  { portfolio := some { starting_equity := some 10000 },
    open_trades := [],
    last_snapshot := some { ending_equity := some 0, realized_pnl := none } }

/-- C4 counterexample: with an equity basis of 0, `evaluate_entry` approves the
entry with recommended size 0, refuting the claim that every approved result
has a strictly positive size. -/
theorem c4_counterexample :
    (evaluate_entry {} c3_candle c4_state).allow = true ∧
    (evaluate_entry {} c3_candle c4_state).size = some 0 := by
  norm_num [evaluate_entry, c3_candle, c4_state, equity_basis]

/-- C4 (amended): every approved `evaluate_entry` call returns the size
(equity × max_risk_pct) / close, where equity is the last snapshot's ending
equity if a snapshot exists and the portfolio's starting equity otherwise; and
when the equity basis, the risk fraction and the bar price are strictly
positive, the approved size is strictly positive and satisfies
size × price = equity × max_risk_pct exactly. -/
theorem evaluate_entry_size_formula
    (p : StrategyParams) (candle : Candle) (state : PortfolioState)
    (pf : Portfolio) (equity : ℚ)
    (hpf : state.portfolio = some pf)
    (hbasis : equity_basis pf state.last_snapshot = some equity)
    (hallow : (evaluate_entry p candle state).allow = true) :
    (evaluate_entry p candle state).size =
        some (equity * p.max_risk_pct / candle.close) ∧
    (0 < equity → 0 < p.max_risk_pct → 0 < candle.close →
      ∃ s, (evaluate_entry p candle state).size = some s ∧ 0 < s ∧
        s * candle.close = equity * p.max_risk_pct) := by
  have hform : (evaluate_entry p candle state).size =
      some (equity * p.max_risk_pct / candle.close) := by
    unfold evaluate_entry at hallow ⊢
    simp only [hpf, hbasis] at hallow ⊢
    rcases hdv : (match state.last_snapshot with
      | some snap =>
        match snap.realized_pnl with
        | some pnl =>
            if pnl < -(equity * p.max_daily_loss_pct) then some pnl else none
        | none => none
      | none => (none : Option ℚ)) with _ | pnl
    · simp only [hdv] at hallow ⊢
      by_cases hcap : p.max_trades_per_day ≤ state.open_trades.length
      · simp [hcap] at hallow
      · simp [hcap]
    · simp only [hdv] at hallow
      simp at hallow
  refine ⟨hform, fun heq hrisk hclose => ?_⟩
  refine ⟨equity * p.max_risk_pct / candle.close, hform, ?_, ?_⟩
  · exact div_pos (mul_pos heq hrisk) hclose
  · exact div_mul_cancel₀ _ (ne_of_gt hclose)

/-- Healthy state used by the C4 witness: equity 10000, no realized loss. -/
def c4_ok_state : PortfolioState :=
  { portfolio := some { starting_equity := some 10000 },
    open_trades := [],
    last_snapshot := some { ending_equity := some 10000, realized_pnl := none } }

/-- Witness for the amended C4 theorem: equity 10000, risk fraction 0.02,
price 100; the approved size is 2 and 2 × 100 = 10000 × 0.02. -/
theorem evaluate_entry_size_formula_witness :
    (evaluate_entry {} c3_candle c4_ok_state).size = some 2 ∧
    ∃ s, (evaluate_entry {} c3_candle c4_ok_state).size = some s ∧ 0 < s ∧
      s * c3_candle.close = 10000 * (0.02 : ℚ) := by
  have h := evaluate_entry_size_formula {} c3_candle c4_ok_state
    { starting_equity := some 10000 }
    10000 rfl rfl
    (by norm_num [evaluate_entry, c3_candle, c4_ok_state, equity_basis])
  refine ⟨?_, h.2 (by norm_num) (by norm_num) (by norm_num [c3_candle])⟩
  rw [h.1]
  norm_num [c3_candle]

/-- Normalized result returned by execution engines
(`ExecutionResult` in `bot/execution/base.py`). -/
structure ExecutionResult where
  exchange_order_id : Option ℕ
  status : OrderStatus
  filled_size : ℚ
  avg_fill_price : Option ℚ
  fee : ℚ
deriving Repr, DecidableEq

/-- Internal per-order record of the simulated engine (the dict stored in
`SimulatedExecutionEngine._orders`). -/
structure SimOrder where
  side : Side
  size : ℚ
  price : Option ℚ
  status : OrderStatus
deriving Repr, DecidableEq

/-- State of `SimulatedExecutionEngine`: fee in basis points, the next order
id counter (ids are the numeric part of the source's strings), and the stored
orders keyed by id. -/
structure SimState where
  fee_bps : ℚ := 5
  next_id : ℕ := 1
  orders : List (ℕ × SimOrder) := []
deriving Repr, DecidableEq

/-- The simulated engine `submit`: allocates the next id, stores pending
state, and reports SUBMITTED. -/
def SimState.submit (s : SimState) (side : Side) (size : ℚ) (price : Option ℚ) :
    SimState × ExecutionResult :=
  let order_id := s.next_id
  ({ s with next_id := s.next_id + 1,
            orders := (order_id,
              { side := side, size := size, price := price,
                status := .SUBMITTED }) :: s.orders },
   { exchange_order_id := some order_id, status := .SUBMITTED, filled_size := 0,
     avg_fill_price := none, fee := 0 })

/-- The simulated engine `poll`: an unknown id is REJECTED; a known order is
filled instantly at its stored price (the source's `order["price"] or 0.0`)
with fee `|price × size| × fee_bps / 10000`, and its stored status is set to
FILLED. -/
def SimState.poll (s : SimState) (oid : ℕ) : SimState × ExecutionResult :=
  match s.orders.lookup oid with
  | none =>
      (s, { exchange_order_id := some oid, status := .REJECTED, filled_size := 0,
            avg_fill_price := none, fee := 0 })
  | some o =>
      let price := o.price.getD 0
      let fee := |price * o.size| * (s.fee_bps / 10000)
      ({ s with orders := s.orders.map fun q =>
           if q.1 = oid then (q.1, { q.2 with status := OrderStatus.FILLED }) else q },
       { exchange_order_id := some oid, status := .FILLED, filled_size := o.size,
         avg_fill_price := some price, fee := fee })

/-- Looking up an id after marking one id's stored status FILLED returns the
stored order with only its status changed. -/
theorem lookup_map_set_status (l : List (ℕ × SimOrder)) (oid : ℕ) :
    (l.map fun q =>
        if q.1 = oid then (q.1, { q.2 with status := OrderStatus.FILLED }) else q).lookup oid
      = (l.lookup oid).map fun o => { o with status := OrderStatus.FILLED } := by
  induction l with
  | nil => rfl
  | cons hd tl ih =>
    rcases hd with ⟨k, v⟩
    by_cases h : k = oid
    · subst h
      rw [List.map_cons, if_pos rfl]
      simp [List.lookup]
    · rw [List.map_cons, if_neg (by simpa using h)]
      have h2 : (oid == k) = false := by
        simp [Ne.symm h]
      simp [List.lookup, h2, ih]

/-- C9: the simulated execution engine contract: submit allocates the current
counter value as the order id (and bumps the counter, so ids strictly
increase) with status SUBMITTED; the first poll of a submitted order returns
FILLED at the stored limit price with fee = |price × size| × (fee_bps/10000);
polling again after any poll returns the identical result (terminal
idempotence); and polling an id that was never stored returns REJECTED. -/
theorem simulated_engine_contract
    (s : SimState) (side : Side) (size : ℚ) (price : ℚ) (oid : ℕ) :
    ((s.submit side size (some price)).2.exchange_order_id = some s.next_id ∧
     (s.submit side size (some price)).2.status = .SUBMITTED ∧
     (s.submit side size (some price)).1.next_id = s.next_id + 1) ∧
    (((s.submit side size (some price)).1.poll s.next_id).2 =
      { exchange_order_id := some s.next_id, status := .FILLED, filled_size := size,
        avg_fill_price := some price, fee := |price * size| * (s.fee_bps / 10000) }) ∧
    (((s.poll oid).1.poll oid).2 = (s.poll oid).2) ∧
    (s.orders.lookup oid = none → (s.poll oid).2.status = .REJECTED) := by
  refine ⟨⟨rfl, rfl, rfl⟩, ?_, ?_, ?_⟩
  · simp [SimState.submit, SimState.poll, List.lookup]
  · rcases h : s.orders.lookup oid with _ | o
    · simp [SimState.poll, h]
    · simp [SimState.poll, h, lookup_map_set_status]
  · intro h
    simp [SimState.poll, h]

/-- Witness for the simulated engine contract: from the initial engine state,
polling unknown id 42 is REJECTED, and submitting a buy of size 2 with limit
price 100 then polling it yields a FILLED result at price 100 with fee
|100 × 2| × (5/10000) = 0.1. -/
theorem simulated_engine_contract_witness :
    (({} : SimState).orders.lookup 42 = none) ∧
    ((({} : SimState).poll 42).2.status = .REJECTED) ∧
    ((({} : SimState).submit .buy 2 (some 100)).1.poll ({} : SimState).next_id).2 =
      { exchange_order_id := some ({} : SimState).next_id, status := .FILLED,
        filled_size := 2, avg_fill_price := some 100,
        fee := |(100 : ℚ) * 2| * (({} : SimState).fee_bps / 10000) } :=
  ⟨rfl,
   (simulated_engine_contract {} .buy 2 100 42).2.2.2 rfl,
   (simulated_engine_contract {} .buy 2 100 42).2.1⟩

/-- A persisted Signal row (the columns `record_signal` writes that the
pipeline later reads). -/
structure SignalRow where
  signal_type : SignalType
  price : ℚ
  timestamp : ℕ
deriving Repr, DecidableEq

/-- A persisted RiskEvent row, as the tag of the event type together with the
payload the runner records. -/
inductive RiskEventRow
  | entryVeto (reason : Option VetoReason)
  | riskWarning (w : RiskWarningMsg)
deriving Repr, DecidableEq

/-- The relational store visible to the pipeline: one portfolio scope with its
rows and the id counters the database would assign on insert. -/
structure DbState where
  portfolio : Option Portfolio := none
  last_snapshot : Option DailySnapshot := none
  orders : List Order := []
  trades : List Trade := []
  signals : List SignalRow := []
  risk_events : List RiskEventRow := []
  next_order_id : ℕ := 0
  next_trade_id : ℕ := 0
deriving Repr, DecidableEq

/-- The atomic state load, `DB.load_portfolio_state`: open trades are the
Trade rows whose `closed_at` is null, in insertion order. -/
def load_portfolio_state (db : DbState) : PortfolioState :=
  match db.portfolio with
  | none => { portfolio := none, open_trades := [], last_snapshot := none }
  | some pf =>
      { portfolio := some pf,
        open_trades := db.trades.filter fun t => t.closed_at.isNone,
        last_snapshot := db.last_snapshot }

/-- Warning-level log events emitted by the lifecycle manager (each
constructor models one `logger.warning` call site; info/debug logs are not
modelled). -/
inductive LogEvent
  | slippageBlockedEnter (preview signal delta_pct : ℚ)
  | slippageBlockedExit (preview signal delta_pct : ℚ)
  | nonPositiveSize
  | exitNoOpenTrades
deriving Repr, DecidableEq

/-- Return value of a lifecycle-manager call: the updated database and
simulated-engine states, the Order row returned to the caller (none when no
order was created), and the warning-level log events emitted. -/
structure ExecOutcome where
  db : DbState
  sim : SimState
  order : Option Order
  logs : List LogEvent
deriving Repr, DecidableEq

/-- Slippage and marketable-limit computation,
`OrderManager._compute_slippage_and_limit`: returns
(price_change_pct, limit_price, is_acceptable); raises on a non-positive
signal price. -/
def compute_slippage_and_limit (p : StrategyParams) (signal_price preview_price : ℚ) :
    Except String (ℚ × ℚ × Bool) :=
  if signal_price ≤ 0 then .error "Invalid signal price"
  else
    let price_change_pct := |preview_price - signal_price| / signal_price * 100
    let is_ok : Bool := price_change_pct ≤ p.max_slippage_pct
    let limit_price :=
      if signal_price ≤ preview_price then signal_price * (1 + p.max_slippage_pct / 100)
      else signal_price * (1 - p.max_slippage_pct / 100)
    .ok (price_change_pct, limit_price, is_ok)

/-- The ENTER workflow, `OrderManager.handle_enter`.  `preview_price_raw` is
the price the execution engine's preview returned (the simulated engine
always returns none, and the code falls back to the signal price).  The
poll-until-terminal loop is a single poll because the simulated engine's
first poll is already terminal. -/
def handle_enter (p : StrategyParams) (db : DbState) (sim : SimState)
    (price : ℚ) (timestamp : ℕ) (candle : Option Candle)
    (size_override : Option ℚ) (preview_price_raw : Option ℚ)
    (state : PortfolioState) : Except String ExecOutcome :=
  match state.portfolio with
  | none => .error "Portfolio missing while handling ENTER."
  | some portfolio =>
    let size? : Except String ℚ :=
      match size_override with
      | some s => .ok s
      | none =>
        match equity_basis portfolio state.last_snapshot with
        | none => .error "Portfolio has no starting or snapshot equity."
        | some equity => .ok (equity * 0.02 / price)
    match size? with
    | .error e => .error e
    | .ok size =>
      if size ≤ 0 then
        .ok { db := db, sim := sim, order := none, logs := [.nonPositiveSize] }
      else
        let preview_price := preview_price_raw.getD price
        match compute_slippage_and_limit p price preview_price with
        | .error e => .error e
        | .ok (change_pct, limit_price, ok) =>
          if !ok then
            .ok { db := db, sim := sim, order := none,
                  logs := [.slippageBlockedEnter preview_price price change_pct] }
          else
            let oid := db.next_order_id
            let (sim1, submission) := sim.submit .buy size (some limit_price)
            let order1 : Order :=
              { id := oid, side := .buy, size := size, price := some limit_price,
                status := .SUBMITTED, opened_at := timestamp, filled_at := none,
                fee := 0, exchange_order_id := submission.exchange_order_id }
            let db1 := { db with orders := db.orders ++ [order1], next_order_id := oid + 1 }
            let (sim2, result) := sim1.poll (submission.exchange_order_id.getD 0)
            let order2 := { order1 with
                            status := result.status,
                            price := result.avg_fill_price,
                            filled_at := some timestamp, fee := result.fee }
            let db2 := { db1 with orders := db1.orders.map fun o => if o.id = oid then order2 else o }
            if result.status = .FILLED then
              let volatility : Option ℚ :=
                match candle with
                | some c => if c.close = 0 then none else some ((c.high - c.low) / c.close)
                | none => none
              let trade : Trade :=
                { id := db2.next_trade_id, entry_order_id := oid, exit_order_id := none,
                  entry_price := result.avg_fill_price.getD 0, exit_price := none,
                  size := result.filled_size, realized_pnl := none, realized_pnl_pct := none,
                  opened_at := timestamp, closed_at := none, exit_reason := none,
                  analytics := { mfe := 0, mae := 0, max_runup_pct := 0, max_drawdown_pct := 0,
                                 volatility_at_entry := volatility, exit_trigger := none } }
              .ok { db := { db2 with
                            trades := db2.trades ++ [trade],
                            next_trade_id := db2.next_trade_id + 1 },
                    sim := sim2, order := some order2, logs := [] }
            else
              .ok { db := db2, sim := sim2, order := some order2, logs := [] }

/-- The EXIT workflow, `OrderManager.handle_exit`.  Note `db.record_trade`
always inserts, so the exit adds a fresh closed Trade row and only the
analytics blob of the original (still open) Trade row is updated. -/
def handle_exit (p : StrategyParams) (db : DbState) (sim : SimState)
    (price : ℚ) (timestamp : ℕ) (auto_reason : Option ExitReason)
    (preview_price_raw : Option ℚ) (state : PortfolioState) :
    Except String ExecOutcome :=
  match state.open_trades with
  | [] => .ok { db := db, sim := sim, order := none, logs := [.exitNoOpenTrades] }
  | trade :: _ =>
    let preview_price := preview_price_raw.getD price
    match compute_slippage_and_limit p price preview_price with
    | .error e => .error e
    | .ok (change_pct, limit_price, ok) =>
      if !ok then
        .ok { db := db, sim := sim, order := none,
              logs := [.slippageBlockedExit preview_price price change_pct] }
      else
        let oid := db.next_order_id
        let (sim1, submission) := sim.submit .sell trade.size (some limit_price)
        let order1 : Order :=
          { id := oid, side := .sell, size := trade.size, price := some limit_price,
            status := .SUBMITTED, opened_at := timestamp, filled_at := none,
            fee := 0, exchange_order_id := submission.exchange_order_id }
        let db1 := { db with orders := db.orders ++ [order1], next_order_id := oid + 1 }
        let (sim2, result) := sim1.poll (submission.exchange_order_id.getD 0)
        let order2 := { order1 with
                        status := result.status,
                        price := result.avg_fill_price,
                        filled_at := some timestamp, fee := result.fee }
        let db2 := { db1 with orders := db1.orders.map fun o => if o.id = oid then order2 else o }
        if result.status = .FILLED then
          let exit_price := result.avg_fill_price.getD 0
          let pnl : Option ℚ × Option ℚ :=
            if trade.entry_price ≠ 0 ∧ trade.size ≠ 0 then
              let realized := (exit_price - trade.entry_price) * trade.size
              (some realized, some (realized / (trade.entry_price * trade.size)))
            else (none, none)
          let closed : Trade :=
            { id := db2.next_trade_id, entry_order_id := trade.entry_order_id,
              exit_order_id := some oid, entry_price := trade.entry_price,
              exit_price := some exit_price, size := trade.size,
              realized_pnl := pnl.1, realized_pnl_pct := pnl.2,
              opened_at := trade.opened_at, closed_at := some timestamp,
              exit_reason := some (auto_reason.getD .exit_signal),
              analytics := { mfe := 0, mae := 0, max_runup_pct := 0, max_drawdown_pct := 0,
                             volatility_at_entry := none, exit_trigger := none } }
          let meta := { trade.analytics with exit_trigger := some (auto_reason.getD .exit_signal) }
          let db3 := { db2 with
                       trades := (db2.trades ++ [closed]).map
                         fun t => if t.id = trade.id then { t with analytics := meta } else t,
                       next_trade_id := db2.next_trade_id + 1 }
          .ok { db := db3, sim := sim2, order := some order2, logs := [] }
        else
          .ok { db := db2, sim := sim2, order := some order2, logs := [] }

/-- Stop-loss/take-profit evaluation, `OrderManager.check_auto_exits`:
stop-loss is checked first, and the engine's preview price is none in the
simulated path. -/
def check_auto_exits (p : StrategyParams) (db : DbState) (sim : SimState)
    (candle : Candle) (state : PortfolioState) : Except String ExecOutcome :=
  match state.open_trades with
  | [] => .ok { db := db, sim := sim, order := none, logs := [] }
  | trade :: _ =>
    if p.stop_loss_pct = 0 ∧ p.take_profit_pct = 0 then
      .ok { db := db, sim := sim, order := none, logs := [] }
    else
      let entry_price := trade.entry_price
      let current_price := candle.close
      let sl_trigger := entry_price * (1 - p.stop_loss_pct / 100)
      let tp_trigger := entry_price * (1 + p.take_profit_pct / 100)
      if 0 < p.stop_loss_pct ∧ current_price ≤ sl_trigger then
        handle_exit p db sim current_price candle.timestamp (some .stop_loss) none state
      else if 0 < p.take_profit_pct ∧ tp_trigger ≤ current_price then
        handle_exit p db sim current_price candle.timestamp (some .take_profit) none state
      else
        .ok { db := db, sim := sim, order := none, logs := [] }

/-- Per-candle MFE/MAE tracking,
`OrderManager.update_trade_tracking_each_candle`: updates the running extrema
on the head open trade and mirrors them into the run-up/drawdown fields;
returns the stored metadata. -/
def update_trade_tracking_each_candle (candle : Candle) (db : DbState)
    (state : PortfolioState) : DbState × Option TradeAnalytics :=
  match state.open_trades with
  | [] => (db, none)
  | trade :: _ =>
    let current := candle.close
    let entry := trade.entry_price
    let pct_change := (current - entry) / entry
    let mfe := max trade.analytics.mfe pct_change
    let mae := min trade.analytics.mae pct_change
    let meta := { trade.analytics with
                  mfe := mfe, mae := mae, max_runup_pct := mfe, max_drawdown_pct := mae }
    ({ db with trades := db.trades.map
                 fun t => if t.id = trade.id then { t with analytics := meta } else t },
     some meta)

/-- C5: for every `handle_enter` call with an existing portfolio, a positive
approved size and a positive signal price, if
delta_pct = |preview_price − signal_price| / signal_price × 100 exceeds
max_slippage_pct, then `handle_enter` returns none, leaves the database
unchanged (no Order row is created), and emits the warning-level
slippage-blocked event. -/
theorem handle_enter_slippage_rejection
    (p : StrategyParams) (db : DbState) (sim : SimState)
    (price : ℚ) (timestamp : ℕ) (candle : Option Candle)
    (s preview : ℚ) (state : PortfolioState) (pf : Portfolio)
    (hpf : state.portfolio = some pf)
    (hs : 0 < s) (hprice : 0 < price)
    (hslip : p.max_slippage_pct < |preview - price| / price * 100) :
    handle_enter p db sim price timestamp candle (some s) (some preview) state =
      .ok { db := db, sim := sim, order := none,
            logs := [.slippageBlockedEnter preview price (|preview - price| / price * 100)] } := by
  simp [handle_enter, compute_slippage_and_limit, hpf,
        not_le.mpr hs, not_le.mpr hprice, not_le.mpr hslip]

/-- Database used by the concrete lifecycle examples: a portfolio with
starting equity 10000 and no other rows. -/
def c5_db : DbState := { portfolio := some { starting_equity := some 10000 } }

/-- Witness for C5 at the spec's concrete numbers: signal price 100, preview
price 102, max_slippage_pct 1.0; the delta is 2% > 1%, so no order is created
and the warning event carries delta 2. -/
theorem handle_enter_slippage_rejection_witness :
    handle_enter { max_slippage_pct := 1 } c5_db {} 100 0 none (some 2) (some 102)
        (load_portfolio_state c5_db) =
      .ok { db := c5_db, sim := {}, order := none,
            logs := [.slippageBlockedEnter 102 100 2] } := by
  have h := handle_enter_slippage_rejection { max_slippage_pct := 1 } c5_db {} 100 0 none
    2 102 (load_portfolio_state c5_db) { starting_equity := some 10000 }
    rfl (by norm_num) (by norm_num) (by norm_num)
  rw [h]
  norm_num

/-- C6: for every bar with an open trade and strictly positive
stop-loss/take-profit fractions, `check_auto_exits` invokes `handle_exit`
with reason stop_loss exactly when close ≤ entry × (1 − sl_pct/100); invokes
`handle_exit` with reason take_profit exactly when the stop-loss did not fire
and close ≥ entry × (1 + tp_pct/100) (stop-loss is checked first, so at most
one fires per bar); and otherwise changes nothing, leaving the trade open. -/
theorem check_auto_exits_triggers
    (p : StrategyParams) (db : DbState) (sim : SimState) (candle : Candle)
    (state : PortfolioState) (trade : Trade) (rest : List Trade)
    (hopen : state.open_trades = trade :: rest)
    (hsl : 0 < p.stop_loss_pct) (htp : 0 < p.take_profit_pct) :
    (candle.close ≤ trade.entry_price * (1 - p.stop_loss_pct / 100) →
      check_auto_exits p db sim candle state =
        handle_exit p db sim candle.close candle.timestamp (some .stop_loss) none state) ∧
    (¬ candle.close ≤ trade.entry_price * (1 - p.stop_loss_pct / 100) →
      trade.entry_price * (1 + p.take_profit_pct / 100) ≤ candle.close →
      check_auto_exits p db sim candle state =
        handle_exit p db sim candle.close candle.timestamp (some .take_profit) none state) ∧
    (¬ candle.close ≤ trade.entry_price * (1 - p.stop_loss_pct / 100) →
      ¬ trade.entry_price * (1 + p.take_profit_pct / 100) ≤ candle.close →
      check_auto_exits p db sim candle state =
        .ok { db := db, sim := sim, order := none, logs := [] }) := by
  refine ⟨fun hc => ?_, fun hnc hc => ?_, fun hnc hnc2 => ?_⟩
  · simp only [check_auto_exits, hopen]
    rw [if_neg (fun h => hsl.ne' h.1), if_pos ⟨hsl, hc⟩]
  · simp only [check_auto_exits, hopen]
    rw [if_neg (fun h => hsl.ne' h.1), if_neg (fun h => hnc h.2), if_pos ⟨htp, hc⟩]
  · simp only [check_auto_exits, hopen]
    rw [if_neg (fun h => hsl.ne' h.1), if_neg (fun h => hnc h.2),
        if_neg (fun h => hnc2 h.2)]

/-- An open trade at entry price 100 used by the concrete examples. -/
def c6_trade : Trade :=
  { id := 0, entry_order_id := 0, exit_order_id := none, entry_price := 100,
    exit_price := none, size := 2, realized_pnl := none, realized_pnl_pct := none,
    opened_at := 0, closed_at := none, exit_reason := none,
    analytics := { mfe := 0, mae := 0, max_runup_pct := 0, max_drawdown_pct := 0,
                   volatility_at_entry := none, exit_trigger := none } }

/-- Portfolio state with the single open trade at entry 100. -/
def c6_state : PortfolioState :=
  { portfolio := some { starting_equity := some 10000 },
    open_trades := [c6_trade],
    last_snapshot := none }

/-- Stop-loss/take-profit parameters of the spec's concrete example. -/
def c6_params : StrategyParams := { stop_loss_pct := 2, take_profit_pct := 4 }

/-- Witness for C6 at the spec's concrete numbers: entry 100, sl 2%, tp 4%;
close 97 fires the stop-loss exit, close 105 fires the take-profit exit, and
close 101 changes nothing (the trade stays open). -/
theorem check_auto_exits_triggers_witness :
    (check_auto_exits c6_params c5_db {} { timestamp := 1, high := 97, low := 97, close := 97 }
        c6_state =
      handle_exit c6_params c5_db {} 97 1 (some .stop_loss) none c6_state) ∧
    (check_auto_exits c6_params c5_db {} { timestamp := 1, high := 105, low := 105, close := 105 }
        c6_state =
      handle_exit c6_params c5_db {} 105 1 (some .take_profit) none c6_state) ∧
    (check_auto_exits c6_params c5_db {} { timestamp := 1, high := 101, low := 101, close := 101 }
        c6_state =
      .ok { db := c5_db, sim := {}, order := none, logs := [] }) := by
  refine ⟨?_, ?_, ?_⟩
  · exact (check_auto_exits_triggers c6_params c5_db {} _ c6_state c6_trade [] rfl
      (by norm_num [c6_params]) (by norm_num [c6_params])).1
      (by norm_num [c6_trade, c6_params])
  · exact (check_auto_exits_triggers c6_params c5_db {} _ c6_state c6_trade [] rfl
      (by norm_num [c6_params]) (by norm_num [c6_params])).2.1
      (by norm_num [c6_trade, c6_params]) (by norm_num [c6_trade, c6_params])
  · exact (check_auto_exits_triggers c6_params c5_db {} _ c6_state c6_trade [] rfl
      (by norm_num [c6_params]) (by norm_num [c6_params])).2.2
      (by norm_num [c6_trade, c6_params]) (by norm_num [c6_trade, c6_params])

/-- Filtering commutes with a map that does not change the filtered field. -/
theorem filter_map_of_preserve {α : Type} (f : α → α) (q : α → Bool)
    (hf : ∀ x, q (f x) = q x) (l : List α) :
    (l.map f).filter q = (l.filter q).map f := by
  induction l with
  | nil => rfl
  | cons hd tl ih =>
    simp only [List.map_cons, List.filter_cons, hf]
    cases hpd : q hd <;> simp [ih]

/-- Analytics of the head open trade of the store, as the next
`update_trade_tracking_each_candle` call would read them. -/
def head_open_analytics (db : DbState) : Option TradeAnalytics :=
  match (load_portfolio_state db).open_trades with
  | [] => none
  | t :: _ => some t.analytics

/-- A sequence of consecutive `update_trade_tracking_each_candle` calls, each
reloading the portfolio state exactly as the run loop does before calling. -/
def track_calls (db : DbState) : List Candle → DbState
  | [] => db
  | c :: cs =>
      track_calls (update_trade_tracking_each_candle c db (load_portfolio_state db)).1 cs

/-- One tracking call updates the head open trade's stored analytics with the
max/min formulas. -/
theorem head_open_analytics_update (db : DbState) (c : Candle) (t : Trade) (rest : List Trade)
    (hopen : (load_portfolio_state db).open_trades = t :: rest) :
    head_open_analytics (update_trade_tracking_each_candle c db (load_portfolio_state db)).1 =
      some { t.analytics with
             mfe := max t.analytics.mfe ((c.close - t.entry_price) / t.entry_price),
             mae := min t.analytics.mae ((c.close - t.entry_price) / t.entry_price),
             max_runup_pct := max t.analytics.mfe ((c.close - t.entry_price) / t.entry_price),
             max_drawdown_pct := min t.analytics.mae ((c.close - t.entry_price) / t.entry_price) } := by
  rcases hpf : db.portfolio with _ | pf
  · rw [load_portfolio_state, hpf] at hopen
    simp at hopen
  · have hload : (load_portfolio_state db).open_trades =
        db.trades.filter fun tr => tr.closed_at.isNone := by
      rw [load_portfolio_state, hpf]
    rw [hload] at hopen
    rw [update_trade_tracking_each_candle, hload, hopen]
    simp only
    rw [head_open_analytics, load_portfolio_state]
    simp only [hpf]
    rw [filter_map_of_preserve _ _ (fun x => ?_) db.trades, hopen]
    · simp
    · by_cases hid : x.id = t.id <;> simp [hid]

/-- C8: each `update_trade_tracking_each_candle` call on a bar with an open
trade stores and returns analytics with
MFE = max(previous MFE, pct_change) and MAE = min(previous MAE, pct_change)
for pct_change = (close − entry)/entry, with the run-up and drawdown fields
equal to MFE and MAE; consequently the returned MFE never decreases and the
returned MAE never increases, and across every sequence of consecutive calls
on the same open trade the stored MFE is monotonically non-decreasing and the
stored MAE monotonically non-increasing. -/
theorem update_trade_tracking_monotone
    (candle : Candle) (db : DbState) (state : PortfolioState)
    (trade : Trade) (rest : List Trade)
    (hopen : state.open_trades = trade :: rest) :
    ((update_trade_tracking_each_candle candle db state).2 =
      some { trade.analytics with
             mfe := max trade.analytics.mfe ((candle.close - trade.entry_price) / trade.entry_price),
             mae := min trade.analytics.mae ((candle.close - trade.entry_price) / trade.entry_price),
             max_runup_pct :=
               max trade.analytics.mfe ((candle.close - trade.entry_price) / trade.entry_price),
             max_drawdown_pct :=
               min trade.analytics.mae ((candle.close - trade.entry_price) / trade.entry_price) }) ∧
    (∀ meta, (update_trade_tracking_each_candle candle db state).2 = some meta →
      trade.analytics.mfe ≤ meta.mfe ∧ meta.mae ≤ trade.analytics.mae ∧
      meta.max_runup_pct = meta.mfe ∧ meta.max_drawdown_pct = meta.mae) ∧
    (∀ (candles : List Candle) (d : DbState) (a0 a1 : TradeAnalytics),
      head_open_analytics d = some a0 →
      head_open_analytics (track_calls d candles) = some a1 →
      a0.mfe ≤ a1.mfe ∧ a1.mae ≤ a0.mae) := by
  have hstep : (update_trade_tracking_each_candle candle db state).2 =
      some { trade.analytics with
             mfe := max trade.analytics.mfe ((candle.close - trade.entry_price) / trade.entry_price),
             mae := min trade.analytics.mae ((candle.close - trade.entry_price) / trade.entry_price),
             max_runup_pct :=
               max trade.analytics.mfe ((candle.close - trade.entry_price) / trade.entry_price),
             max_drawdown_pct :=
               min trade.analytics.mae ((candle.close - trade.entry_price) / trade.entry_price) } := by
    rw [update_trade_tracking_each_candle, hopen]
  refine ⟨hstep, fun meta hmeta => ?_, fun candles => ?_⟩
  · rw [hstep] at hmeta
    injection hmeta with hmeta
    subst hmeta
    exact ⟨le_max_left _ _, min_le_left _ _, rfl, rfl⟩
  · induction candles with
    | nil =>
      intro d a0 a1 h0 h1
      rw [track_calls] at h1
      rw [h0] at h1
      injection h1 with h1
      subst h1
      exact ⟨le_refl _, le_refl _⟩
    | cons c cs ih =>
      intro d a0 a1 h0 h1
      rcases hop : (load_portfolio_state d).open_trades with _ | ⟨t, rest2⟩
      · rw [head_open_analytics, hop] at h0
        exact absurd h0 (by simp)
      · have ha0 : t.analytics = a0 := by
          rw [head_open_analytics, hop] at h0
          injection h0
        rw [track_calls] at h1
        have hmid := head_open_analytics_update d c t rest2 hop
        have := ih _ _ _ hmid h1
        refine ⟨le_trans ?_ this.1, le_trans this.2 ?_⟩
        · rw [← ha0]
          exact le_max_left _ _
        · rw [← ha0]
          exact min_le_left _ _

/-- Bar at close 105 used by the tracking witness. -/
def c8_candle : Candle := { timestamp := 1, high := 105, low := 105, close := 105 }

/-- Database with the single open trade at entry 100 used by the tracking
witness. -/
def c8_db : DbState :=
  { portfolio := some { starting_equity := some 10000 }, trades := [c6_trade] }

/-- Witness for C8: one tracking call on the open trade at entry 100 with a
bar closing at 105 stores MFE = run-up = 0.05 and MAE = drawdown = 0. -/
theorem update_trade_tracking_monotone_witness :
    (update_trade_tracking_each_candle c8_candle c8_db (load_portfolio_state c8_db)).2 =
      some { mfe := 0.05, mae := 0, max_runup_pct := 0.05, max_drawdown_pct := 0,
             volatility_at_entry := none, exit_trigger := none } := by
  have h := (update_trade_tracking_monotone c8_candle c8_db
    (load_portfolio_state c8_db) c6_trade [] rfl).1
  rw [h]
  norm_num [c6_trade, c8_candle]

/-- A strategy as the run loop consumes it: `generate_signal(candle, state)`,
possibly returning no signal. -/
abbrev Strat := Candle → PortfolioState → Option StrategySignal

/-- Persist a risk event row, `DB.record_risk_event`. -/
def record_risk_event (db : DbState) (e : RiskEventRow) : DbState :=
  { db with risk_events := db.risk_events ++ [e] }

/-- Mutable state of one `StrategyRunner`: the stores, the debounce field
`last_signal_type`, and the accumulated list of acted-upon signals the run
returns. -/
structure RunnerState where
  db : DbState
  sim : SimState
  last_signal_type : Option SignalType
  signals : List StrategySignal
deriving Repr, DecidableEq

/-- The exception the acted-signal path of `StrategyRunner.run` raises:
`runner.py` line 141 evaluates `sig.signal_type.value.upper()` inside an
eagerly-built f-string (and line 150 would evaluate `sig.signal_type.value`
again), but `signal_type` is a plain string — `SignalType` in `signals.py` is
a class of string constants, not an enum. -/
def attrErr : String := "AttributeError: str object has no attribute value"

/-- One iteration of `StrategyRunner.run` for a single candle: load the
portfolio state once, update trade tracking, check auto exits, generate the
signal from the bar-start state, debounce.  A signal that passes debounce
raises `AttributeError` (runner.py line 141 reads `.value` on the plain-str
signal type) before it is persisted and before any risk check or lifecycle
call; the in-memory `last_signal_type` assignment and `signals.append` that
precede the raise are lost with the propagating exception. -/
def runner_step (p : StrategyParams) (strat : Strat) (rs : RunnerState) (candle : Candle) :
    Except String RunnerState :=
  let state := load_portfolio_state rs.db
  let db1 := (update_trade_tracking_each_candle candle rs.db state).1
  match check_auto_exits p db1 rs.sim candle state with
  | .error e => .error e
  | .ok auto =>
    match strat candle state with
    | none => .ok { rs with db := auto.db, sim := auto.sim }
    | some sig =>
      if rs.last_signal_type = some sig.signal_type then
        .ok { rs with db := auto.db, sim := auto.sim }
      else
        .error attrErr

/-- The `StrategyRunner.run` loop over an ordered candle sequence. -/
def runner_run (p : StrategyParams) (strat : Strat) (rs : RunnerState) :
    List Candle → Except String RunnerState
  | [] => .ok rs
  | c :: cs =>
    match runner_step p strat rs c with
    | .error e => .error e
    | .ok rs1 => runner_run p strat rs1 cs

/-- The base `Strategy.generate_signal`: ENTER if the enter rule triggers,
else EXIT if the exit rule triggers, else HOLD; the signal carries the bar's
close as its price.  Wall-clock signal timestamps are modelled as the bar
index. -/
def base_generate_signal (should_enter should_exit : Candle → PortfolioState → Bool)
    (candle : Candle) (state : PortfolioState) : StrategySignal :=
  if should_enter candle state then
    { timestamp := candle.timestamp, signal_type := .ENTER, price := candle.close }
  else if should_exit candle state then
    { timestamp := candle.timestamp, signal_type := .EXIT, price := candle.close }
  else
    { timestamp := candle.timestamp, signal_type := .HOLD, price := candle.close }

/-- A base-class strategy plugged into the run loop: `generate_signal` always
returns a signal. -/
def base_strategy (should_enter should_exit : Candle → PortfolioState → Bool) : Strat :=
  fun c st => some (base_generate_signal should_enter should_exit c st)

/-- A successful `handle_exit` never touches the signal and risk-event tables
nor the portfolio/snapshot rows. -/
theorem handle_exit_ok_frame
    (p : StrategyParams) (db : DbState) (sim : SimState)
    (price : ℚ) (ts : ℕ) (reason : Option ExitReason) (pv : Option ℚ)
    (st : PortfolioState) (out : ExecOutcome)
    (h : handle_exit p db sim price ts reason pv st = .ok out) :
    out.db.signals = db.signals ∧ out.db.risk_events = db.risk_events ∧
    out.db.portfolio = db.portfolio ∧ out.db.last_snapshot = db.last_snapshot := by
  simp only [handle_exit] at h
  repeat' split at h
  all_goals cases h
  all_goals exact ⟨rfl, rfl, rfl, rfl⟩

/-- A successful `handle_enter` never touches the signal and risk-event
tables nor the portfolio/snapshot rows. -/
theorem handle_enter_ok_frame
    (p : StrategyParams) (db : DbState) (sim : SimState)
    (price : ℚ) (ts : ℕ) (candle : Option Candle) (so pv : Option ℚ)
    (st : PortfolioState) (out : ExecOutcome)
    (h : handle_enter p db sim price ts candle so pv st = .ok out) :
    out.db.signals = db.signals ∧ out.db.risk_events = db.risk_events ∧
    out.db.portfolio = db.portfolio ∧ out.db.last_snapshot = db.last_snapshot := by
  simp only [handle_enter] at h
  repeat' split at h
  all_goals cases h
  all_goals exact ⟨rfl, rfl, rfl, rfl⟩

/-- A successful `check_auto_exits` never touches the signal and risk-event
tables nor the portfolio/snapshot rows. -/
theorem check_auto_exits_ok_frame
    (p : StrategyParams) (db : DbState) (sim : SimState) (candle : Candle)
    (st : PortfolioState) (out : ExecOutcome)
    (h : check_auto_exits p db sim candle st = .ok out) :
    out.db.signals = db.signals ∧ out.db.risk_events = db.risk_events ∧
    out.db.portfolio = db.portfolio ∧ out.db.last_snapshot = db.last_snapshot := by
  simp only [check_auto_exits] at h
  repeat' split at h
  all_goals first
    | exact handle_exit_ok_frame _ _ _ _ _ _ _ _ _ h
    | (cases h; exact ⟨rfl, rfl, rfl, rfl⟩)

/-- Trade tracking only rewrites trade analytics: every other table and the
counters are unchanged. -/
theorem update_trade_tracking_frame (candle : Candle) (db : DbState) (st : PortfolioState) :
    (update_trade_tracking_each_candle candle db st).1.signals = db.signals ∧
    (update_trade_tracking_each_candle candle db st).1.risk_events = db.risk_events ∧
    (update_trade_tracking_each_candle candle db st).1.portfolio = db.portfolio ∧
    (update_trade_tracking_each_candle candle db st).1.last_snapshot = db.last_snapshot ∧
    (update_trade_tracking_each_candle candle db st).1.orders = db.orders := by
  unfold update_trade_tracking_each_candle
  split
  · exact ⟨rfl, rfl, rfl, rfl, rfl⟩
  · exact ⟨rfl, rfl, rfl, rfl, rfl⟩

/-- Recording soft-warning risk events does not touch the signals table. -/
theorem foldl_record_warning_signals (l : List RiskWarningMsg) (d : DbState) :
    (l.foldl (fun d w => record_risk_event d (.riskWarning w)) d).signals = d.signals := by
  induction l generalizing d with
  | nil => rfl
  | cons w ws ih =>
    rw [List.foldl_cons, ih]
    rfl

/-- A run-loop iteration in which the strategy produced no signal leaves the
acted-signals list, the persisted signals and the debounce state unchanged
(only tracking/auto-exit effects happen). -/
theorem runner_step_none_effects (p : StrategyParams) (rs : RunnerState) (c : Candle)
    (rs1 : RunnerState)
    (h : runner_step p (fun _ _ => none) rs c = .ok rs1) :
    rs1.db.signals = rs.db.signals ∧ rs1.signals = rs.signals ∧
    rs1.last_signal_type = rs.last_signal_type := by
  simp only [runner_step] at h
  rcases hauto : check_auto_exits p
      (update_trade_tracking_each_candle c rs.db (load_portfolio_state rs.db)).1 rs.sim c
      (load_portfolio_state rs.db) with e | auto
  · simp only [hauto] at h
    cases h
  · simp only [hauto] at h
    cases h
    have hframe := (check_auto_exits_ok_frame _ _ _ _ _ _ hauto).1
    have htrack := (update_trade_tracking_frame c rs.db (load_portfolio_state rs.db)).1
    exact ⟨hframe.trans htrack, rfl, rfl⟩

/-- A debounced signal makes the iteration behave exactly as a no-signal
iteration. -/
theorem runner_step_dropped (p : StrategyParams) (strat : Strat) (rs : RunnerState)
    (c : Candle) (sig : StrategySignal)
    (h1 : strat c (load_portfolio_state rs.db) = some sig)
    (h2 : rs.last_signal_type = some sig.signal_type) :
    runner_step p strat rs c = runner_step p (fun _ _ => none) rs c := by
  simp only [runner_step, h1]
  rcases hauto : check_auto_exits p
      (update_trade_tracking_each_candle c rs.db (load_portfolio_state rs.db)).1 rs.sim c
      (load_portfolio_state rs.db) with e | auto <;>
    simp [hauto, h2]

/-- A signal that passes debounce aborts the iteration with the runner's
AttributeError (runner.py line 141): nothing is persisted, no risk check and
no lifecycle call runs, and the exception propagates. -/
theorem runner_step_acted_raises (p : StrategyParams) (strat : Strat) (rs : RunnerState)
    (c : Candle) (sig : StrategySignal) (auto : ExecOutcome)
    (h1 : strat c (load_portfolio_state rs.db) = some sig)
    (h2 : rs.last_signal_type ≠ some sig.signal_type)
    (hauto : check_auto_exits p
        (update_trade_tracking_each_candle c rs.db (load_portfolio_state rs.db)).1
        rs.sim c (load_portfolio_state rs.db) = .ok auto) :
    runner_step p strat rs c = .error attrErr := by
  simp only [runner_step, h1, hauto]
  rw [if_neg h2]

/-- A state-independent strategy that emits HOLD with the bar's close on every
bar, used by the C2 and C7 concrete runs. -/
def c2_strat : Strat :=
  fun c _ => some { timestamp := c.timestamp, signal_type := .HOLD, price := c.close }

/-- First bar of the C2 concrete run. -/
def c2_bar0 : Candle := { timestamp := 0, high := 100, low := 100, close := 100 }

/-- Second bar of the C2 concrete run. -/
def c2_bar1 : Candle := { timestamp := 1, high := 100, low := 100, close := 100 }

/-- Initial runner state over the portfolio-only database. -/
def c2_rs0 : RunnerState :=
  { db := c5_db, sim := {}, last_signal_type := none, signals := [] }

/-- C2 (code bug): the dropped half of the claim is faithful — a bar whose
signal type equals the last emitted one behaves exactly like a no-signal bar,
so nothing is persisted and no risk check or lifecycle action runs — but the
acted half is not: a signal that passes debounce is never persisted, because
`runner.py` line 141 reads `.value` on the plain-str signal type and raises
AttributeError before `record_signal`; consequently two consecutive
identical-type bars yield zero persisted acted-upon signals, not one — the
run aborts on the first bar, as the concrete two-HOLD-bars run shows. -/
theorem runner_debounce_vs_crash :
    (∀ (p : StrategyParams) (strat : Strat) (rs : RunnerState) (c : Candle)
        (sig : StrategySignal),
      strat c (load_portfolio_state rs.db) = some sig →
      rs.last_signal_type = some sig.signal_type →
      runner_step p strat rs c = runner_step p (fun _ _ => none) rs c) ∧
    (∀ (p : StrategyParams) (strat : Strat) (rs : RunnerState) (c : Candle)
        (sig : StrategySignal) (auto : ExecOutcome),
      strat c (load_portfolio_state rs.db) = some sig →
      rs.last_signal_type ≠ some sig.signal_type →
      check_auto_exits p
          (update_trade_tracking_each_candle c rs.db (load_portfolio_state rs.db)).1
          rs.sim c (load_portfolio_state rs.db) = .ok auto →
      runner_step p strat rs c = .error attrErr) ∧
    runner_run {} c2_strat c2_rs0 [c2_bar0, c2_bar1] = .error attrErr := by
  refine ⟨?_, ?_, ?_⟩
  · intro p strat rs c sig h1 h2
    exact runner_step_dropped p strat rs c sig h1 h2
  · intro p strat rs c sig auto h1 h2 hauto
    exact runner_step_acted_raises p strat rs c sig auto h1 h2 hauto
  · rfl

/-- Signal types of the acted-upon signals of a finished run. -/
def acted_signal_types : Except String RunnerState → Option (List SignalType)
  | .ok rs => some (rs.signals.map fun s => s.signal_type)
  | .error _ => none

/-- Bars (timestamps) of the filled buy orders of a finished run. -/
def filled_buy_bars : Except String RunnerState → Option (List ℕ)
  | .ok rs => some ((rs.db.orders.filter fun o =>
      o.side = Side.buy ∧ o.status = OrderStatus.FILLED).map fun o => o.opened_at)
  | .error _ => none

/-- Enter rule of the C10 run: enter on bars 0 and 3. -/
def c10_se : Candle → PortfolioState → Bool :=
  fun c _ => decide (c.timestamp = 0 ∨ c.timestamp = 3)

/-- Exit rule of the C10 run: never exits. -/
def c10_sx : Candle → PortfolioState → Bool := fun _ _ => false

/-- Four flat bars at 100. -/
def c10_bars : List Candle :=
  [{ timestamp := 0, high := 100, low := 100, close := 100 },
   { timestamp := 1, high := 100, low := 100, close := 100 },
   { timestamp := 2, high := 100, low := 100, close := 100 },
   { timestamp := 3, high := 100, low := 100, close := 100 }]

/-- Initial runner state of the C10 run. -/
def c10_rs0 : RunnerState :=
  { db := c5_db, sim := {}, last_signal_type := none, signals := [] }

/-- The C10 run: a base strategy emitting ENTER, HOLD, HOLD, ENTER through the
full run loop with default parameters. -/
def c10_result : Except String RunnerState :=
  runner_run {} (base_strategy c10_se c10_sx) c10_rs0 c10_bars

/-- C10 (code bug): the base `Strategy.generate_signal` is faithful to
`base.py` — it never returns none, defaulting to a HOLD signal carrying the
bar's close when neither rule triggers — but no signal, HOLD included, ever
reaches the debounce bookkeeping of a completed run: the first signal that
passes debounce raises the runner's AttributeError (runner.py line 141 reads
`.value` on the plain-str signal type), so the concrete ENTER, HOLD, HOLD,
ENTER run aborts on bar 0's ENTER with no acted signal recorded and no order
placed. -/
theorem base_strategy_hold_debounce :
    (∀ (se sx : Candle → PortfolioState → Bool) (c : Candle) (st : PortfolioState),
      base_strategy se sx c st = some (base_generate_signal se sx c st) ∧
      (se c st = false → sx c st = false →
        (base_generate_signal se sx c st).signal_type = .HOLD) ∧
      (base_generate_signal se sx c st).price = c.close) ∧
    c10_result = .error attrErr ∧
    acted_signal_types c10_result = none ∧
    filled_buy_bars c10_result = none := by
  refine ⟨?_, rfl, rfl, rfl⟩
  intro se sx c st
  refine ⟨rfl, fun hse hsx => ?_, ?_⟩
  · simp [base_generate_signal, hse, hsx]
  · rcases hse : se c st <;> rcases hsx : sx c st <;>
      simp [base_generate_signal, hse, hsx]

/-- In-memory trade record of the fast engine (`FastTrade`). -/
structure FastTrade where
  entry_time : ℕ
  exit_time : Option ℕ
  entry_price : ℚ
  exit_price : Option ℚ
  pnl : Option ℚ
  size : ℚ
deriving Repr, DecidableEq

/-- In-memory state of the fast engine's candle loop. -/
structure FastState where
  equity : ℚ
  peak_equity : ℚ
  trades : List FastTrade
  open_trade : Option FastTrade
  signals_seen : ℕ
deriving Repr, DecidableEq

/-- A strategy as the fast engine consumes it: `on_bar(candle)`, with no
portfolio state. -/
abbrev FastStrat := Candle → Option StrategySignal

/-- The fast engine's signal handling for one bar (the part of the loop after
the auto-exit check): count the signal, enter when flat on ENTER, close the
position on EXIT, ignore anything else. -/
def fast_signal_phase (p : StrategyParams) (strat : FastStrat) (c : Candle)
    (fs : FastState) : FastState :=
  match strat c with
  | none => fs
  | some sig =>
    let fs1 := { fs with signals_seen := fs.signals_seen + 1 }
    match sig.signal_type, fs1.open_trade with
    | .ENTER, none =>
        let risk_amount := fs1.equity * p.max_risk_pct
        let size := risk_amount / sig.price
        { fs1 with
          open_trade := some
            { entry_time := c.timestamp, exit_time := none,
              entry_price := sig.price, exit_price := none, pnl := none, size := size } }
    | .EXIT, some ot =>
        let pnl := (sig.price - ot.entry_price) * ot.size
        let equity1 := fs1.equity + pnl
        { fs1 with
          equity := equity1, peak_equity := max fs1.peak_equity equity1,
          trades := fs1.trades ++
            [{ ot with
               exit_price := some sig.price,
               exit_time := some c.timestamp, pnl := some pnl }],
          open_trade := none }
    | _, _ => fs1

/-- One iteration of `FastBacktestEngine.run`'s candle loop: the inlined
stop-loss/take-profit check first (note the stop-loss branch recomputes the
position size from current equity, as the source does), then the signal
phase.  A fired auto exit skips the bar's signal generation (`continue`). -/
def fast_step (p : StrategyParams) (strat : FastStrat) (fs : FastState) (c : Candle) :
    FastState :=
  match fs.open_trade with
  | some ot =>
    let entry := ot.entry_price
    let size := ot.size
    let price := c.close
    let sl := p.stop_loss_pct / 100
    let tp := p.take_profit_pct / 100
    if 0 < sl ∧ price ≤ entry * (1 - sl) then
      let position_size := fs.equity * p.max_risk_pct / ot.entry_price
      let pnl := position_size * (price - ot.entry_price)
      let equity1 := fs.equity + pnl
      { fs with
        equity := equity1, peak_equity := max fs.peak_equity equity1,
        trades := fs.trades ++
          [{ entry_time := ot.entry_time, exit_time := some c.timestamp,
             entry_price := entry, exit_price := some price, pnl := some pnl, size := size }],
        open_trade := none }
    else if 0 < tp ∧ entry * (1 + tp) ≤ price then
      let pnl := (price - entry) * size
      let equity1 := fs.equity + pnl
      { fs with
        equity := equity1, peak_equity := max fs.peak_equity equity1,
        trades := fs.trades ++
          [{ entry_time := ot.entry_time, exit_time := some c.timestamp,
             entry_price := entry, exit_price := some price, pnl := some pnl, size := size }],
        open_trade := none }
    else fast_signal_phase p strat c fs
  | none => fast_signal_phase p strat c fs

/-- `FastBacktestEngine.run` over a pre-sorted candle slice: fold the per-bar
step from the starting equity with no position. -/
def fast_run (p : StrategyParams) (strat : FastStrat) (portfolio_equity : ℚ)
    (candles : List Candle) : FastState :=
  candles.foldl (fast_step p strat)
    { equity := portfolio_equity, peak_equity := portfolio_equity, trades := [],
      open_trade := none, signals_seen := 0 }

/-- Entry decisions of a fast-engine run: entry bars of the recorded trades
plus the still-open position. -/
def FastState.entry_bars (fs : FastState) : List ℕ :=
  (fs.trades.map fun t => t.entry_time) ++
    (match fs.open_trade with
     | some ot => [ot.entry_time]
     | none => [])

/-- Exit decisions of a fast-engine run. -/
def FastState.exit_bars (fs : FastState) : List ℕ :=
  fs.trades.filterMap fun t => t.exit_time

/-- `BacktestEngine.run_backtest` on a pre-sorted candle sequence: after the
portfolio-scoped reset the stores are empty except the portfolio row, and the
live Run Loop is replayed against a fresh simulated execution engine. -/
def run_backtest (p : StrategyParams) (strat : Strat) (starting_equity : Option ℚ)
    (candles : List Candle) : Except String RunnerState :=
  runner_run p strat
    { db := { portfolio := some { starting_equity := starting_equity } }, sim := {},
      last_signal_type := none, signals := [] } candles

/-- Entry decisions of a full-engine run: bars of the filled buy orders. -/
def full_entry_bars (rs : RunnerState) : List ℕ :=
  (rs.db.orders.filter fun o =>
    o.side = Side.buy ∧ o.status = OrderStatus.FILLED).map fun o => o.opened_at

/-- Exit decisions of a full-engine run: bars of the filled sell orders. -/
def full_exit_bars (rs : RunnerState) : List ℕ :=
  (rs.db.orders.filter fun o =>
    o.side = Side.sell ∧ o.status = OrderStatus.FILLED).map fun o => o.opened_at

/-- Trade count as `run_backtest` computes it: persisted Trade rows with a
realized P&L. -/
def full_trade_count (rs : RunnerState) : ℕ :=
  (rs.db.trades.filter fun t => t.realized_pnl.isSome).length

/-- The state-oblivious signal function of the C1 counterexample: ENTER on
bars 0 and 2, HOLD on bar 1. -/
def c1_sig : Candle → Option StrategySignal :=
  fun c => some { timestamp := c.timestamp,
                  signal_type := if c.timestamp = 1 then .HOLD else .ENTER,
                  price := c.close }

/-- Three flat bars at 100. -/
def c1_bars : List Candle :=
  [{ timestamp := 0, high := 100, low := 100, close := 100 },
   { timestamp := 1, high := 100, low := 100, close := 100 },
   { timestamp := 2, high := 100, low := 100, close := 100 }]

/-- The full-fidelity run of the C1 counterexample. -/
def c1_full : Except String RunnerState :=
  run_backtest {} (fun c _ => c1_sig c) (some 10000) c1_bars

/-- The fast-engine run of the C1 counterexample on the same inputs. -/
def c1_fast : FastState := fast_run {} c1_sig 10000 c1_bars

/-- Entry bars of a finished full run. -/
def full_entry_bars_of : Except String RunnerState → Option (List ℕ)
  | .ok rs => some (full_entry_bars rs)
  | .error _ => none

/-- C1 counterexample: on the same state-oblivious strategy (ENTER, HOLD,
ENTER), parameters and bars, the full-fidelity engine aborts on bar 0's
ENTER with the runner's AttributeError — `run_backtest` propagates the
exception and yields no entry decisions at all — while the fast engine,
whose loop never reads `.value`, completes and enters on bar 0: the engines
do not yield the same decisions. -/
theorem c1_counterexample :
    c1_full = .error attrErr ∧
    full_entry_bars_of c1_full = none ∧
    c1_fast.entry_bars = [0] := by
  refine ⟨rfl, rfl, ?_⟩
  norm_num [c1_fast, fast_run, fast_step, fast_signal_phase, c1_sig, c1_bars,
    FastState.entry_bars]

/-- Decision-relevant projection of a Trade row: everything the risk gate,
the exit path and the trade statistics read (analytics excluded). -/
structure TradeCore where
  id : ℕ
  entry_price : ℚ
  size : ℚ
  closed_at : Option ℕ
  realized_pnl : Option ℚ
deriving Repr, DecidableEq

/-- Core projection of a Trade row. -/
def Trade.core (t : Trade) : TradeCore :=
  { id := t.id, entry_price := t.entry_price, size := t.size,
    closed_at := t.closed_at, realized_pnl := t.realized_pnl }

/-- Mapping a function that fixes every element is the identity. -/
theorem map_eq_self_of {α : Type} (l : List α) (f : α → α) (h : ∀ x ∈ l, f x = x) :
    l.map f = l := by
  induction l with
  | nil => rfl
  | cons hd tl ih =>
    rw [List.map_cons, h hd (by simp), ih fun x hx => h x (by simp [hx])]

/-- Number of open Trade rows of the store. -/
def openCntDb (db : DbState) : ℕ :=
  (db.trades.filter fun t => t.closed_at.isNone).length

/-- Lists of trades with equal core projections have equally many open rows,
equally many realized rows, and transfer any core-level property. -/
theorem core_view_transfer (l1 l2 : List Trade)
    (h : l1.map Trade.core = l2.map Trade.core) :
    (l1.filter fun t => t.closed_at.isNone).length =
      (l2.filter fun t => t.closed_at.isNone).length ∧
    (l1.filter fun t => t.realized_pnl.isSome).length =
      (l2.filter fun t => t.realized_pnl.isSome).length ∧
    ∀ (Q : TradeCore → Prop), (∀ t ∈ l2, Q t.core) → ∀ t ∈ l1, Q t.core := by
  refine ⟨?_, ?_, ?_⟩
  · rw [← List.countP_eq_length_filter, ← List.countP_eq_length_filter]
    have h1 : l1.countP (fun t => t.closed_at.isNone) =
        (l1.map Trade.core).countP (fun q => q.closed_at.isNone) := by
      rw [List.countP_map]
      rfl
    have h2 : l2.countP (fun t => t.closed_at.isNone) =
        (l2.map Trade.core).countP (fun q => q.closed_at.isNone) := by
      rw [List.countP_map]
      rfl
    rw [h1, h2, h]
  · rw [← List.countP_eq_length_filter, ← List.countP_eq_length_filter]
    have h1 : l1.countP (fun t => t.realized_pnl.isSome) =
        (l1.map Trade.core).countP (fun q => q.realized_pnl.isSome) := by
      rw [List.countP_map]
      rfl
    have h2 : l2.countP (fun t => t.realized_pnl.isSome) =
        (l2.map Trade.core).countP (fun q => q.realized_pnl.isSome) := by
      rw [List.countP_map]
      rfl
    rw [h1, h2, h]
  · intro Q hq t ht
    have : t.core ∈ l2.map Trade.core := by
      rw [← h]
      exact List.mem_map_of_mem _ ht
    rcases List.mem_map.mp this with ⟨t2, ht2, hcore⟩
    rw [← hcore]
    exact hq t2 ht2

/-- Tracking rewrites only trade analytics: every other column and the core
projection of every trade row is unchanged. -/
theorem update_trade_tracking_core (c : Candle) (db : DbState) (st : PortfolioState) :
    (update_trade_tracking_each_candle c db st).1.portfolio = db.portfolio ∧
    (update_trade_tracking_each_candle c db st).1.last_snapshot = db.last_snapshot ∧
    (update_trade_tracking_each_candle c db st).1.orders = db.orders ∧
    (update_trade_tracking_each_candle c db st).1.next_order_id = db.next_order_id ∧
    (update_trade_tracking_each_candle c db st).1.next_trade_id = db.next_trade_id ∧
    (update_trade_tracking_each_candle c db st).1.trades.map Trade.core =
      db.trades.map Trade.core := by
  unfold update_trade_tracking_each_candle
  rcases st.open_trades with _ | ⟨trade, rest⟩
  · exact ⟨rfl, rfl, rfl, rfl, rfl, rfl⟩
  · refine ⟨rfl, rfl, rfl, rfl, rfl, ?_⟩
    simp only [List.map_map]
    refine List.map_congr_left fun t ht => ?_
    by_cases hid : t.id = trade.id <;> simp [Function.comp, hid, Trade.core]

/-- With both stop-loss and take-profit disabled, the auto-exit check is a
no-op. -/
theorem check_auto_exits_disabled (p : StrategyParams) (db : DbState) (sim : SimState)
    (c : Candle) (st : PortfolioState)
    (hsl : p.stop_loss_pct = 0) (htp : p.take_profit_pct = 0) :
    check_auto_exits p db sim c st = .ok { db := db, sim := sim, order := none, logs := [] } := by
  unfold check_auto_exits
  rcases h : st.open_trades with _ | ⟨trade, rest⟩ <;> simp [h, hsl, htp]

/-- With both stop-loss and take-profit disabled, a fast-engine bar reduces
to the signal phase, and a no-signal bar changes nothing. -/
theorem fast_step_disabled (p : StrategyParams) (strat : FastStrat) (fs : FastState)
    (c : Candle) (hsl : p.stop_loss_pct = 0) (htp : p.take_profit_pct = 0) :
    fast_step p strat fs c = fast_signal_phase p strat c fs := by
  unfold fast_step
  rcases h : fs.open_trade with _ | ot <;> simp [h, hsl, htp]

/-- The risk gate under a backtest-reset store: portfolio present, no daily
snapshot, fewer open trades than the cap — the entry is allowed at the
equity-based size. -/
theorem evaluate_entry_backtest (p : StrategyParams) (c : Candle) (state : PortfolioState)
    (pf : Portfolio) (e : ℚ)
    (hpf : state.portfolio = some pf) (hsnap : state.last_snapshot = none)
    (hse : pf.starting_equity = some e)
    (hcap : state.open_trades.length < p.max_trades_per_day) :
    evaluate_entry p c state =
      { allow := true, size := some (e * p.max_risk_pct / c.close),
        warnings := if c.close * (2 / 100) < c.high - c.low then
            [RiskWarningMsg.highIntradayVolatility] else [],
        veto_reason := none } := by
  unfold evaluate_entry equity_basis
  rw [hpf, hsnap]
  simp only [hse, if_neg (not_le.mpr hcap)]

/-- Marketable limit price when the preview equals the signal price (the
simulated path): the buy-side bound. -/
def noslip_limit (p : StrategyParams) (price : ℚ) : ℚ :=
  price * (1 + p.max_slippage_pct / 100)

/-- The single Order row a successful simulated-path `handle_enter` appends. -/
def enter_order_row (p : StrategyParams) (db : DbState) (sim : SimState)
    (price : ℚ) (ts : ℕ) (s : ℚ) : Order :=
  { id := db.next_order_id, side := .buy, size := s,
    price := some (noslip_limit p price), status := .FILLED,
    opened_at := ts, filled_at := some ts,
    fee := |noslip_limit p price * s| * (sim.fee_bps / 10000),
    exchange_order_id := some sim.next_id }

/-- The single Trade row a successful simulated-path `handle_enter` appends. -/
def enter_trade_row (p : StrategyParams) (db : DbState)
    (price : ℚ) (ts : ℕ) (candle : Option Candle) (s : ℚ) : Trade :=
  { id := db.next_trade_id, entry_order_id := db.next_order_id,
    exit_order_id := none, entry_price := noslip_limit p price,
    exit_price := none, size := s, realized_pnl := none,
    realized_pnl_pct := none, opened_at := ts, closed_at := none,
    exit_reason := none,
    analytics := { mfe := 0, mae := 0, max_runup_pct := 0, max_drawdown_pct := 0,
                   volatility_at_entry :=
                     match candle with
                     | some c => if c.close = 0 then none
                         else some ((c.high - c.low) / c.close)
                     | none => none,
                   exit_trigger := none } }

/-- A `handle_enter` call on the simulated path (no preview price) with a
portfolio, a positive override size, a positive signal price, and a
non-negative slippage cap fills immediately: it appends exactly one FILLED
buy Order row and one open Trade row. -/
theorem handle_enter_filled
    (p : StrategyParams) (db : DbState) (sim : SimState)
    (price : ℚ) (ts : ℕ) (candle : Option Candle) (s : ℚ)
    (state : PortfolioState) (pf : Portfolio)
    (hpf : state.portfolio = some pf)
    (hs : 0 < s) (hprice : 0 < price) (hslip : 0 ≤ p.max_slippage_pct)
    (hoid : ∀ o ∈ db.orders, o.id ≠ db.next_order_id) :
    ∃ sim2,
      handle_enter p db sim price ts candle (some s) none state =
        .ok { db := { db with
                      orders := db.orders ++ [enter_order_row p db sim price ts s],
                      trades := db.trades ++ [enter_trade_row p db price ts candle s],
                      next_order_id := db.next_order_id + 1,
                      next_trade_id := db.next_trade_id + 1 },
              sim := sim2,
              order := some (enter_order_row p db sim price ts s),
              logs := [] } := by
  have hpct : |price - price| / price * 100 ≤ p.max_slippage_pct := by
    simpa using hslip
  refine ⟨{ sim with
            next_id := sim.next_id + 1,
            orders := (sim.next_id,
                { side := Side.buy, size := s, price := some (noslip_limit p price),
                  status := OrderStatus.FILLED }) ::
              sim.orders.map fun q =>
                if q.1 = sim.next_id then (q.1, { q.2 with status := OrderStatus.FILLED })
                else q }, ?_⟩
  simp only [handle_enter, hpf, Option.getD_none, compute_slippage_and_limit,
    SimState.submit, SimState.poll, List.lookup,
    enter_order_row, enter_trade_row, noslip_limit]
  rw [if_neg (not_le.mpr hs), if_neg (not_le.mpr hprice)]
  simp only [beq_self_eq_true, decide_eq_true_eq]
  rw [if_pos (le_refl price)]
  simp only [hpct, decide_eq_true hpct, Bool.not_true, Bool.false_eq_true, if_false,
    List.map_append, List.map_cons, List.map_nil]
  rw [map_eq_self_of db.orders _ (fun o ho => if_neg (hoid o ho))]
  simp

/-- The single Order row a successful simulated-path `handle_exit` appends. -/
def exit_order_row (p : StrategyParams) (db : DbState) (sim : SimState)
    (price : ℚ) (ts : ℕ) (trade : Trade) : Order :=
  { id := db.next_order_id, side := .sell, size := trade.size,
    price := some (noslip_limit p price), status := .FILLED,
    opened_at := ts, filled_at := some ts,
    fee := |noslip_limit p price * trade.size| * (sim.fee_bps / 10000),
    exchange_order_id := some sim.next_id }

/-- The closed Trade row a successful simulated-path `handle_exit` inserts
(`db.record_trade` always inserts; the entry row stays open). -/
def exit_closed_row (p : StrategyParams) (db : DbState)
    (price : ℚ) (ts : ℕ) (reason : Option ExitReason) (trade : Trade) : Trade :=
  { id := db.next_trade_id, entry_order_id := trade.entry_order_id,
    exit_order_id := some db.next_order_id, entry_price := trade.entry_price,
    exit_price := some (noslip_limit p price), size := trade.size,
    realized_pnl := some ((noslip_limit p price - trade.entry_price) * trade.size),
    realized_pnl_pct :=
      some (((noslip_limit p price - trade.entry_price) * trade.size) /
        (trade.entry_price * trade.size)),
    opened_at := trade.opened_at, closed_at := some ts,
    exit_reason := some (reason.getD .exit_signal),
    analytics := { mfe := 0, mae := 0, max_runup_pct := 0, max_drawdown_pct := 0,
                   volatility_at_entry := none, exit_trigger := none } }

/-- The analytics update `handle_exit` applies to the original trade row. -/
def exit_meta_upd (trade : Trade) (reason : Option ExitReason) : Trade → Trade :=
  fun t => if t.id = trade.id then
      { t with analytics :=
          { trade.analytics with exit_trigger := some (reason.getD .exit_signal) } }
    else t

/-- A `handle_exit` call on the simulated path with an open trade of nonzero
entry price and size, a positive trigger price and a non-negative slippage
cap fills immediately: it appends exactly one FILLED sell Order row, inserts
one closed Trade row with a realized P&L, and rewrites only the analytics of
the original trade row. -/
theorem handle_exit_filled
    (p : StrategyParams) (db : DbState) (sim : SimState)
    (price : ℚ) (ts : ℕ) (reason : Option ExitReason)
    (state : PortfolioState) (trade : Trade) (rest : List Trade)
    (hopen : state.open_trades = trade :: rest)
    (hprice : 0 < price) (hslip : 0 ≤ p.max_slippage_pct)
    (hentry : trade.entry_price ≠ 0) (hsize : trade.size ≠ 0)
    (hoid : ∀ o ∈ db.orders, o.id ≠ db.next_order_id)
    (htrid : trade.id ≠ db.next_trade_id) :
    ∃ sim2,
      handle_exit p db sim price ts reason none state =
        .ok { db := { db with
                      orders := db.orders ++ [exit_order_row p db sim price ts trade],
                      trades := db.trades.map (exit_meta_upd trade reason) ++
                        [exit_closed_row p db price ts reason trade],
                      next_order_id := db.next_order_id + 1,
                      next_trade_id := db.next_trade_id + 1 },
              sim := sim2,
              order := some (exit_order_row p db sim price ts trade),
              logs := [] } := by
  have hpct : |price - price| / price * 100 ≤ p.max_slippage_pct := by
    simpa using hslip
  refine ⟨{ sim with
            next_id := sim.next_id + 1,
            orders := (sim.next_id,
                { side := Side.sell, size := trade.size,
                  price := some (noslip_limit p price),
                  status := OrderStatus.FILLED }) ::
              sim.orders.map fun q =>
                if q.1 = sim.next_id then (q.1, { q.2 with status := OrderStatus.FILLED })
                else q }, ?_⟩
  simp only [handle_exit, hopen, Option.getD_none, compute_slippage_and_limit,
    SimState.submit, SimState.poll, List.lookup,
    exit_order_row, exit_closed_row, exit_meta_upd, noslip_limit]
  rw [if_neg (not_le.mpr hprice)]
  simp only [beq_self_eq_true, decide_eq_true_eq]
  rw [if_pos (le_refl price)]
  simp only [hpct, decide_eq_true hpct, Bool.not_true, Bool.false_eq_true, if_false,
    List.map_append, List.map_cons, List.map_nil]
  rw [map_eq_self_of db.orders _ (fun o ho => if_neg (hoid o ho)),
      if_pos (⟨hentry, hsize⟩ : trade.entry_price ≠ 0 ∧ trade.size ≠ 0)]
  simp [Ne.symm htrid]
  intro a ha
  by_cases hid : a.id = trade.id <;> simp [exit_meta_upd, hid]

/-- Loading state from a store with a portfolio row. -/
theorem load_portfolio_state_some (db : DbState) (pf : Portfolio)
    (h : db.portfolio = some pf) :
    load_portfolio_state db =
      { portfolio := some pf,
        open_trades := db.trades.filter fun t => t.closed_at.isNone,
        last_snapshot := db.last_snapshot } := by
  unfold load_portfolio_state
  rw [h]

/-- Recording a batch of soft warnings only appends risk events. -/
theorem foldl_record_warning_eq (l : List RiskWarningMsg) (d : DbState) :
    ∃ evs, l.foldl (fun d w => record_risk_event d (.riskWarning w)) d =
      { d with risk_events := evs } := by
  induction l generalizing d with
  | nil => exact ⟨d.risk_events, rfl⟩
  | cons w ws ih =>
    rcases ih (record_risk_event d (.riskWarning w)) with ⟨evs, hevs⟩
    exact ⟨evs, by rw [List.foldl_cons, hevs]; rfl⟩

/-- The analytics rewrite of `handle_exit` preserves the core projection. -/
theorem exit_meta_upd_core (trade : Trade) (reason : Option ExitReason) (t : Trade) :
    (exit_meta_upd trade reason t).core = t.core := by
  unfold exit_meta_upd
  by_cases hid : t.id = trade.id <;> simp [hid, Trade.core]

/-- A no-signal bar of the full run with auto exits disabled only applies the
trade tracking update. -/
theorem runner_step_none_spec (p : StrategyParams) (sigOf : FastStrat)
    (rs : RunnerState) (c : Candle)
    (hsl : p.stop_loss_pct = 0) (htp : p.take_profit_pct = 0)
    (hsig : sigOf c = none) :
    runner_step p (fun c _ => sigOf c) rs c = .ok
      { rs with db := (update_trade_tracking_each_candle c rs.db
          (load_portfolio_state rs.db)).1 } := by
  simp only [runner_step, hsig,
    check_auto_exits_disabled p _ rs.sim c (load_portfolio_state rs.db) hsl htp]

/-- A no-signal bar of the fast engine changes nothing. -/
theorem fast_phase_none (p : StrategyParams) (strat : FastStrat) (c : Candle)
    (fs : FastState) (h : strat c = none) :
    fast_signal_phase p strat c fs = fs := by
  simp [fast_signal_phase, h]

/-- The fast engine on an ENTER signal while flat: count the signal and open
a position sized from current equity. -/
theorem fast_phase_enter (p : StrategyParams) (strat : FastStrat) (c : Candle)
    (fs : FastState) (s : StrategySignal)
    (h : strat c = some s) (hty : s.signal_type = .ENTER)
    (hflat : fs.open_trade = none) :
    fast_signal_phase p strat c fs =
      { fs with signals_seen := fs.signals_seen + 1,
                open_trade := some
                  { entry_time := c.timestamp, exit_time := none,
                    entry_price := s.price, exit_price := none, pnl := none,
                    size := fs.equity * p.max_risk_pct / s.price } } := by
  simp [fast_signal_phase, h, hty, hflat]

/-- The fast engine on an EXIT signal while in position: close the trade,
book its P&L into equity and append the completed record. -/
theorem fast_phase_exit (p : StrategyParams) (strat : FastStrat) (c : Candle)
    (fs : FastState) (s : StrategySignal) (ot : FastTrade)
    (h : strat c = some s) (hty : s.signal_type = .EXIT)
    (hopen : fs.open_trade = some ot) :
    fast_signal_phase p strat c fs =
      { fs with signals_seen := fs.signals_seen + 1,
                equity := fs.equity + (s.price - ot.entry_price) * ot.size,
                peak_equity := max fs.peak_equity
                  (fs.equity + (s.price - ot.entry_price) * ot.size),
                trades := fs.trades ++
                  [{ ot with exit_price := some s.price,
                             exit_time := some c.timestamp,
                             pnl := some ((s.price - ot.entry_price) * ot.size) }],
                open_trade := none } := by
  simp [fast_signal_phase, h, hty, hopen]

/-- The open-row count of a store is computable from the core projections. -/
theorem openCntDb_core (db : DbState) :
    openCntDb db = (db.trades.map Trade.core).countP fun q => q.closed_at.isNone := by
  unfold openCntDb
  rw [← List.countP_eq_length_filter, List.countP_map]
  rfl

/-- The realized-trade count is computable from the core projections. -/
theorem full_trade_count_core (rs : RunnerState) :
    full_trade_count rs =
      (rs.db.trades.map Trade.core).countP fun q => q.realized_pnl.isSome := by
  unfold full_trade_count
  rw [← List.countP_eq_length_filter, List.countP_map]
  rfl

/-- The decision extractors only read the order list. -/
theorem bars_congr (rs1 rs : RunnerState) (h : rs1.db.orders = rs.db.orders) :
    full_entry_bars rs1 = full_entry_bars rs ∧ full_exit_bars rs1 = full_exit_bars rs := by
  unfold full_entry_bars full_exit_bars
  rw [h]
  exact ⟨rfl, rfl⟩

/-- Appending a filled buy order adds its bar to the entry decisions and
leaves the exit decisions unchanged. -/
theorem bars_snoc_buy (rs1 rs : RunnerState) (o : Order)
    (h : rs1.db.orders = rs.db.orders ++ [o])
    (hside : o.side = Side.buy) (hst : o.status = OrderStatus.FILLED) :
    full_entry_bars rs1 = full_entry_bars rs ++ [o.opened_at] ∧
    full_exit_bars rs1 = full_exit_bars rs := by
  refine ⟨?_, ?_⟩ <;>
    simp [full_entry_bars, full_exit_bars, h, List.filter_append, hside, hst]

/-- Appending a filled sell order adds its bar to the exit decisions and
leaves the entry decisions unchanged. -/
theorem bars_snoc_sell (rs1 rs : RunnerState) (o : Order)
    (h : rs1.db.orders = rs.db.orders ++ [o])
    (hside : o.side = Side.sell) (hst : o.status = OrderStatus.FILLED) :
    full_entry_bars rs1 = full_entry_bars rs ∧
    full_exit_bars rs1 = full_exit_bars rs ++ [o.opened_at] := by
  refine ⟨?_, ?_⟩ <;>
    simp [full_entry_bars, full_exit_bars, h, List.filter_append, hside, hst]

/-- Core projections agree field by field. -/
theorem core_fields_eq (t0 t : Trade) (h : t0.core = t.core) :
    t0.id = t.id ∧ t0.entry_price = t.entry_price ∧ t0.size = t.size ∧
    t0.closed_at = t.closed_at ∧ t0.realized_pnl = t.realized_pnl :=
  ⟨congrArg TradeCore.id h, congrArg TradeCore.entry_price h, congrArg TradeCore.size h,
   congrArg TradeCore.closed_at h, congrArg TradeCore.realized_pnl h⟩

/-- Membership analysis for a core list that extends another by one row. -/
theorem mem_core_cases (l l0 : List Trade) (cc : TradeCore)
    (h : l.map Trade.core = l0.map Trade.core ++ [cc]) (t : Trade) (ht : t ∈ l) :
    (∃ t0 ∈ l0, t0.core = t.core) ∨ t.core = cc := by
  have hmem : t.core ∈ l0.map Trade.core ++ [cc] := by
    rw [← h]
    exact List.mem_map_of_mem _ ht
  rcases List.mem_append.mp hmem with h1 | h1
  · rcases List.mem_map.mp h1 with ⟨t0, ht0, hc⟩
    exact Or.inl ⟨t0, ht0, hc⟩
  · exact Or.inr (List.mem_singleton.mp h1)

/-- With no open trade in the loaded state, the auto-exit check is a no-op. -/
theorem check_auto_exits_no_open (p : StrategyParams) (db : DbState) (sim : SimState)
    (c : Candle) (st : PortfolioState) (h : st.open_trades = []) :
    check_auto_exits p db sim c st = .ok { db := db, sim := sim, order := none, logs := [] } := by
  unfold check_auto_exits
  rw [h]

/-- With no open trade in the loaded state, the tracking update is a no-op. -/
theorem update_trade_tracking_no_open (c : Candle) (db : DbState)
    (st : PortfolioState) (h : st.open_trades = []) :
    update_trade_tracking_each_candle c db st = (db, none) := by
  unfold update_trade_tracking_each_candle
  rw [h]

/-- A fast-engine bar with no position reduces to the signal phase,
regardless of the stop-loss/take-profit configuration. -/
theorem fast_step_flat (p : StrategyParams) (strat : FastStrat) (fs : FastState)
    (c : Candle) (h : fs.open_trade = none) :
    fast_step p strat fs c = fast_signal_phase p strat c fs := by
  unfold fast_step
  rw [h]

/-- The fast engine's signal phase never discards an entry decision: the
entry bars after the phase extend the entry bars before it. -/
theorem fast_phase_entry_bars_extend (p : StrategyParams) (strat : FastStrat)
    (c : Candle) (fs : FastState) :
    ∃ l, (fast_signal_phase p strat c fs).entry_bars = fs.entry_bars ++ l := by
  rcases hs : strat c with _ | s
  · exact ⟨[], by simp [fast_phase_none p strat c fs hs]⟩
  rcases hty : s.signal_type with _ | _ | _ <;> rcases ho : fs.open_trade with _ | ot
  · exact ⟨[c.timestamp], by
      rw [fast_phase_enter p strat c fs s hs hty ho]
      simp [FastState.entry_bars, ho]⟩
  · exact ⟨[], by simp [fast_signal_phase, hs, hty, ho, FastState.entry_bars]⟩
  · exact ⟨[], by simp [fast_signal_phase, hs, hty, ho, FastState.entry_bars]⟩
  · exact ⟨[], by
      rw [fast_phase_exit p strat c fs s ot hs hty ho]
      simp [FastState.entry_bars, ho, List.map_append]⟩
  · exact ⟨[], by simp [fast_signal_phase, hs, hty, ho, FastState.entry_bars]⟩
  · exact ⟨[], by simp [fast_signal_phase, hs, hty, ho, FastState.entry_bars]⟩

/-- A fast-engine step never discards an entry decision. -/
theorem fast_step_entry_bars_extend (p : StrategyParams) (strat : FastStrat)
    (fs : FastState) (c : Candle) :
    ∃ l, (fast_step p strat fs c).entry_bars = fs.entry_bars ++ l := by
  rcases h : fs.open_trade with _ | ot
  · rw [fast_step_flat p strat fs c h]
    exact fast_phase_entry_bars_extend p strat c fs
  · simp only [fast_step, h]
    split
    · exact ⟨[], by simp [FastState.entry_bars, h, List.map_append]⟩
    · split
      · exact ⟨[], by simp [FastState.entry_bars, h, List.map_append]⟩
      · exact fast_phase_entry_bars_extend p strat c fs

/-- Entry decisions of the fast engine survive the rest of the candle fold. -/
theorem fast_fold_entry_bars_mono (p : StrategyParams) (strat : FastStrat)
    (cs : List Candle) :
    ∀ (fs : FastState) (x : ℕ), x ∈ fs.entry_bars →
      x ∈ (cs.foldl (fast_step p strat) fs).entry_bars := by
  induction cs with
  | nil => exact fun fs x hx => hx
  | cons c cs ih =>
    intro fs x hx
    rw [List.foldl_cons]
    apply ih
    obtain ⟨l, hl⟩ := fast_step_entry_bars_extend p strat fs c
    rw [hl]
    exact List.mem_append_left _ hx

/-- C1 (code bug): the engines cannot produce the same entry decisions on any
input where either engine acts.  For every parameter set, starting equity and
state-oblivious strategy whose first bar emits an ENTER signal, the
full-fidelity `run_backtest` aborts with the runner's AttributeError —
runner.py line 141 reads `.value` on the plain-str signal type of the first
signal that passes debounce, before anything is persisted — while the fast
engine, whose loop never reads `.value`, completes and records an entry at
that first bar.  The spec's equivalence can hold only vacuously, on runs
where the strategy never emits a debounce-passing signal. -/
theorem c1_full_engine_crashes_where_fast_enters
    (p : StrategyParams) (sigOf : FastStrat) (e : ℚ)
    (c : Candle) (cs : List Candle) (s : StrategySignal)
    (hsig : sigOf c = some s) (hty : s.signal_type = .ENTER) :
    run_backtest p (fun c _ => sigOf c) (some e) (c :: cs) = .error attrErr ∧
    c.timestamp ∈ (fast_run p sigOf e (c :: cs)).entry_bars := by
  constructor
  · have hop : (load_portfolio_state
        (({ portfolio := some { starting_equity := some e } } : DbState))).open_trades = [] := rfl
    have htr := update_trade_tracking_no_open c
      (({ portfolio := some { starting_equity := some e } } : DbState))
      (load_portfolio_state (({ portfolio := some { starting_equity := some e } } : DbState))) hop
    have hauto : check_auto_exits p
        (update_trade_tracking_each_candle c
          (({ portfolio := some { starting_equity := some e } } : DbState))
          (load_portfolio_state (({ portfolio := some { starting_equity := some e } } : DbState)))).1
        ({} : SimState) c
        (load_portfolio_state (({ portfolio := some { starting_equity := some e } } : DbState))) =
        .ok { db := (update_trade_tracking_each_candle c
                (({ portfolio := some { starting_equity := some e } } : DbState))
                (load_portfolio_state (({ portfolio := some { starting_equity := some e } } : DbState)))).1,
              sim := {}, order := none, logs := [] } :=
      check_auto_exits_no_open p _ _ c _ hop
    have herr := runner_step_acted_raises p (fun c _ => sigOf c)
      { db := { portfolio := some { starting_equity := some e } }, sim := {},
        last_signal_type := none, signals := [] }
      c s _ hsig (by simp) hauto
    show runner_run p (fun c _ => sigOf c)
      { db := { portfolio := some { starting_equity := some e } }, sim := {},
        last_signal_type := none, signals := [] } (c :: cs) = .error attrErr
    simp only [runner_run, herr]
  · show c.timestamp ∈ (List.foldl (fast_step p sigOf)
      { equity := e, peak_equity := e, trades := [], open_trade := none,
        signals_seen := 0 } (c :: cs)).entry_bars
    rw [List.foldl_cons]
    apply fast_fold_entry_bars_mono
    rw [fast_step_flat p sigOf _ c rfl,
      fast_phase_enter p sigOf c _ s hsig hty rfl]
    simp [FastState.entry_bars]

/-- First bar of the C1 witness. -/
def w1_bar : Candle := { timestamp := 0, high := 100, low := 100, close := 100 }

/-- Closed instance of the C1 divergence: the concrete ENTER-on-bar-0
strategy makes the full engine abort with the AttributeError while the fast
engine records the bar-0 entry. -/
theorem c1_full_engine_crashes_where_fast_enters_witness :
    run_backtest {} (fun c _ => c1_sig c) (some 10000) [w1_bar] = .error attrErr ∧
    (0 : ℕ) ∈ (fast_run {} c1_sig 10000 [w1_bar]).entry_bars :=
  c1_full_engine_crashes_where_fast_enters {} c1_sig 10000 w1_bar []
    { timestamp := 0, signal_type := .ENTER, price := 100 } rfl rfl

end Bot
